import Mathlib

/- Formal model of `benchmark_serving.py` (AI-Hypercomputer/inference-benchmark).

   Conventions of the embedding:
   * Python numbers are modelled with `ℚ` (latencies, times, weights) and `ℕ`
     (counts, token lengths).
   * Python float division, which raises `ZeroDivisionError` on a zero
     denominator, is modelled by `pyDiv : ℚ → ℚ → Option ℚ` with `none` for
     the raised exception.
   * Randomness (the `random` / `np.random` calls and the network) is modelled
     by oracle arguments: a function supplying the draw or the outcome of each
     successive I/O attempt.
   * `Option`-valued functions use `none` for a raised, uncaught exception. -/

set_option maxRecDepth 4000

/-- Python float division: `a / b` raises `ZeroDivisionError` when `b = 0`;
the `none` result models the raised exception. -/
def pyDiv (a b : ℚ) : Option ℚ :=
  if b = 0 then none else some (a / b)

/-- The error-counter dictionary created by `init_errors_map` (lines 171-180),
one counter per caught transport exception class. -/
structure ErrorsMap where
  clientConnectorError : ℕ
  timeoutError : ℕ
  contentTypeError : ℕ
  clientOSError : ℕ
  serverDisconnectedError : ℕ
  unknownError : ℕ
deriving DecidableEq, Repr

/-- `init_errors_map()`: every counter starts at zero. -/
def initErrorsMap : ErrorsMap := ⟨0, 0, 0, 0, 0, 0⟩

/-- Pointwise addition of error maps, as performed by the collector loop
`overall_results["errors"][k] += v` (benchmark, lines 515-518). -/
def ErrorsMap.add (a b : ErrorsMap) : ErrorsMap :=
  ⟨a.clientConnectorError + b.clientConnectorError,
   a.timeoutError + b.timeoutError,
   a.contentTypeError + b.contentTypeError,
   a.clientOSError + b.clientOSError,
   a.serverDisconnectedError + b.serverDisconnectedError,
   a.unknownError + b.unknownError⟩

/-- The transport-level exception classes caught by `send_request` and
`send_stream_request` (lines 252-275 and 389-412). -/
inductive TransportErr
  | clientConnectorError
  | timeoutError
  | clientOSError
  | contentTypeError
  | serverDisconnectedError
  | unknownError
deriving DecidableEq, Repr

/-- The error map returned from the matching `except` branch: the single
corresponding counter of a fresh `init_errors_map()` incremented once. -/
def errorsFor : TransportErr → ErrorsMap
  | .clientConnectorError => { initErrorsMap with clientConnectorError := 1 }
  | .timeoutError => { initErrorsMap with timeoutError := 1 }
  | .clientOSError => { initErrorsMap with clientOSError := 1 }
  | .contentTypeError => { initErrorsMap with contentTypeError := 1 }
  | .serverDisconnectedError => { initErrorsMap with serverDisconnectedError := 1 }
  | .unknownError => { initErrorsMap with unknownError := 1 }

/-- Outcome of one `session.post` attempt inside the retry loop of
`send_request`: either the awaited JSON body, with or without an embedded
"error" field, or a raised transport exception. -/
inductive AttemptOutcome
  | response (hasErrorField : Bool)
  | exn (e : TransportErr)
deriving DecidableEq, Repr

/-- Result of the `while True:` loop of `send_request` (lines 381-412):
`failed e` models `return None, None, None, errors`; `ok n` models reaching
`break` after `n` POST attempts in total. -/
inductive SendLoopResult
  | failed (e : ErrorsMap)
  | ok (attemptsUsed : ℕ)
deriving DecidableEq, Repr

/-- The `while True:` retry loop of `send_request` (lines 381-412), driven by
the oracle `attempts` giving the outcome of each successive POST. `i` is the
index of the next attempt. The `fuel` bound only limits how many loop
iterations are unfolded: `none` means the loop is still running after `fuel`
iterations. A response without an "error" field breaks out of the loop; a
response with an "error" field falls through to the next iteration and the
same request is POSTed again; a transport exception returns the error map. -/
def sendRequestLoop (attempts : ℕ → AttemptOutcome) : ℕ → ℕ → Option SendLoopResult
  | _, 0 => none
  | i, fuel + 1 =>
    match attempts i with
    | .exn e => some (.failed (errorsFor e))
    | .response false => some (.ok (i + 1))
    | .response true => sendRequestLoop attempts (i + 1) fuel

/-- The post-exchange metric block of `send_request` (lines 440-446): the
latency triple `(prompt_len, output_len, latency_ms)` is built, then
`normalized_time_per_output_token_metric.observe` divides the latency by
`output_len`; a zero output length raises `ZeroDivisionError` (`none`) and
the outcome is never returned. -/
def sendRequestFinish (promptLen outputLen : ℕ) (latencyMs : ℚ) : Option (ℕ × ℕ × ℚ) :=
  match pyDiv latencyMs (outputLen : ℚ) with
  | none => none
  | some _ => some (promptLen, outputLen, latencyMs)

/-- The post-stream metric block of `send_stream_request` (lines 276-289):
`tpot_metric` is observed only when `output_len > 1` (division by
`output_len - 1`), then the normalized metric divides the latency by
`output_len` unconditionally; a zero output length raises
`ZeroDivisionError` (`none`) and the outcome is never returned. -/
def sendStreamRequestFinish (promptLen outputLen : ℕ) (latencyMs ttftMs : ℚ) :
    Option ((ℕ × ℕ × ℚ) × ℚ) :=
  match (if 1 < outputLen then pyDiv (latencyMs - ttftMs) ((outputLen : ℚ) - 1) else some 0) with
  | none => none
  | some _ =>
    match pyDiv latencyMs (outputLen : ℚ) with
    | none => none
    | some _ => some ((promptLen, outputLen, latencyMs), ttftMs)

/-- One entry of the `results` list gathered in `benchmark` (line 504): the
4-tuple `(latency, ttft_ms, itl_ms, errors)` returned by `send_request` or
`send_stream_request`, abstracted by its possible shapes:
`(None, None, None, errors)` on a transport failure (constructor `failure`) and
`(latency, ttft, itl, None)` on success (constructor `success`;
`send_request` returns `ttft = None` and `itl = None`). -/
inductive ReqResult
  | failure (errors : ErrorsMap)
  | success (latency : ℕ × ℕ × ℚ) (ttftMs : Option ℚ) (itlMs : Option (List ℚ))
deriving DecidableEq, Repr

/-- Python truthiness of `ttft_ms` in `if ttft_ms:` (line 523): `None` and
`0.0` are falsy. -/
def truthyQ : Option ℚ → Bool
  | none => false
  | some t => decide (t ≠ 0)

/-- Python truthiness of `itl_ms` in `if itl_ms:` (line 528): `None` and the
empty list are falsy. -/
def truthyList : Option (List ℚ) → Bool
  | none => false
  | some l => !l.isEmpty

/-- The collector expression of lines 525 and 527:
`(request_latency_ms - ttft_ms) / (output_len - 1) if output_len > 1 else 0`. -/
def tpotExpr (latencyMs ttftMs : ℚ) (outputLen : ℕ) : ℚ :=
  if 1 < outputLen then (latencyMs - ttftMs) / ((outputLen : ℚ) - 1) else 0

/-- The same conditional expression with Python division modelled by `pyDiv`,
to express that the guard prevents any division by zero. -/
def tpotExprChecked (latencyMs ttftMs : ℚ) (outputLen : ℕ) : Option ℚ :=
  if 1 < outputLen then pyDiv (latencyMs - ttftMs) ((outputLen : ℚ) - 1) else some 0

/-- One bucket of the collector in `benchmark`: the dict
`{"latencies": [], "ttfts": [], "itls": [], "tpots": [], "errors": init_errors_map()}`
(lines 506-509). -/
structure BucketAcc where
  latencies : List (ℕ × ℕ × ℚ)
  ttfts : List ℚ
  itls : List ℚ
  tpots : List ℚ
  errors : ErrorsMap
deriving DecidableEq, Repr

/-- A freshly initialized bucket. -/
def emptyBucket : BucketAcc := ⟨[], [], [], [], initErrorsMap⟩

/-- Effect of one result on one bucket (collector body, lines 515-530): a
failure only adds its error counters; a success appends the latency triple
`(prompt_len, output_len, latency_ms)` and, when `ttft_ms` is truthy, the
ttft value and the tpot expression, and, when `itl_ms` is truthy, the
inter-token latencies. -/
def bucketAdd (b : BucketAcc) (r : ReqResult) : BucketAcc :=
  match r with
  | .failure e => { b with errors := b.errors.add e }
  | .success lat ttft itl =>
    { latencies := b.latencies ++ [lat]
      ttfts := b.ttfts ++ (if truthyQ ttft then [ttft.getD 0] else [])
      itls := b.itls ++ (if truthyList itl then itl.getD [] else [])
      tpots := b.tpots ++ (if truthyQ ttft then [tpotExpr lat.2.2 (ttft.getD 0) lat.2.1] else [])
      errors := b.errors }

/-- The collector loop `for chosen_model, res in results:` (lines 511-530):
a `None` result is skipped; every other result updates both the overall bucket
and the bucket of its chosen model. Per-model buckets are modelled as a total
function on strings; the code only ever indexes models from `model_names`. -/
def collectLoop :
    List (String × Option ReqResult) → BucketAcc → (String → BucketAcc) →
      BucketAcc × (String → BucketAcc)
  | [], ov, pm => (ov, pm)
  | (_, none) :: rest, ov, pm => collectLoop rest ov pm
  | (m, some r) :: rest, ov, pm =>
    collectLoop rest (bucketAdd ov r) (fun m2 => if m2 = m then bucketAdd (pm m2) r else pm m2)

/-- `overall_results` and `per_model_results` after the collector loop, both
starting from fresh empty buckets (lines 506-509). -/
def collect (results : List (String × Option ReqResult)) :
    BucketAcc × (String → BucketAcc) :=
  collectLoop results emptyBucket (fun _ => emptyBucket)

/-- Latency triples a single result contributes to a bucket. -/
def resLat : ReqResult → List (ℕ × ℕ × ℚ)
  | .failure _ => []
  | .success lat _ _ => [lat]

/-- Latency triples of the successful results, in order. -/
def successLatsAll : List (String × Option ReqResult) → List (ℕ × ℕ × ℚ)
  | [] => []
  | (_, none) :: rest => successLatsAll rest
  | (_, some r) :: rest => resLat r ++ successLatsAll rest

/-- Latency triples of the successful results whose chosen model is `m`. -/
def successLatsFor : List (String × Option ReqResult) → String → List (ℕ × ℕ × ℚ)
  | [], _ => []
  | (_, none) :: rest, m => successLatsFor rest m
  | (m2, some r) :: rest, m => (if m2 = m then resLat r else []) ++ successLatsFor rest m

/-- Sum of the output lengths of a list of latency triples
`(prompt_len, output_len, latency_ms)`. -/
def sumOutputLens (lats : List (ℕ × ℕ × ℚ)) : ℕ := (lats.map (fun l => l.2.1)).sum

/-- Sum of the prompt lengths of a list of latency triples. -/
def sumPromptLens (lats : List (ℕ × ℕ × ℚ)) : ℕ := (lats.map (fun l => l.1)).sum

/-- The throughput figures computed by `print_and_save_result`
(lines 825-854): the printed `Requests/sec`, the saved `throughput_rps`, the
output-token rate saved as `throughput`, the input-token rate and the combined
token rate. -/
structure ReportFigures where
  requestsPerSec : ℚ
  throughputRps : ℚ
  outputTokensPerSec : ℚ
  inputTokensPerSec : ℚ
  tokensPerSec : ℚ
deriving DecidableEq, Repr

/-- `print_and_save_result` throughput computations (lines 825-854):
`Requests/sec` is `total_requests / benchmark_duration_sec`;
`throughput_rps` is `args.num_prompts / benchmark_duration_sec`;
`throughput` is the summed output lengths of `request_latencies` over the
duration; the input and total token rates likewise. -/
def reportFigures (numPrompts : ℕ) (durationSec : ℚ) (totalRequests : ℕ)
    (requestLatencies : List (ℕ × ℕ × ℚ)) : ReportFigures :=
  { requestsPerSec := (totalRequests : ℚ) / durationSec
    throughputRps := (numPrompts : ℚ) / durationSec
    outputTokensPerSec := (sumOutputLens requestLatencies : ℚ) / durationSec
    inputTokensPerSec := (sumPromptLens requestLatencies : ℚ) / durationSec
    tokensPerSec := ((sumPromptLens requestLatencies + sumOutputLens requestLatencies : ℕ) : ℚ) / durationSec }

/-- The `"weighted"` call site of `print_and_save_result` (line 534):
`total_requests` is `prompts_sent` and the series come from the overall
bucket. -/
def weightedReportFigures (numPrompts promptsSent : ℕ) (durationSec : ℚ)
    (results : List (String × Option ReqResult)) : ReportFigures :=
  reportFigures numPrompts durationSec promptsSent (collect results).1.latencies

/-- The per-model call site of `print_and_save_result` (line 539):
`total_requests` is `len(data["latencies"])` — the number of successful
requests of that model — and the series come from that model bucket. -/
def modelReportFigures (numPrompts : ℕ) (durationSec : ℚ)
    (results : List (String × Option ReqResult)) (m : String) : ReportFigures :=
  reportFigures numPrompts durationSec ((collect results).2 m).latencies.length
    ((collect results).2 m).latencies

/-- Number of requests emitted with chosen model `m`: one `results` entry is
created per emitted request (lines 495-504). -/
def emittedTo (results : List (String × Option ReqResult)) (m : String) : ℕ :=
  (results.filter (fun p => decide (p.1 = m))).length

/-- State of the `AsyncRequestCounter` singleton (lines 59-79): `_count`,
`_target_requests`, `_start_time`, and `_end_time`, which is only ever
assigned inside `increment`. -/
structure Counter where
  count : ℕ
  targetRequests : Option ℕ
  startTime : ℚ
  endTime : Option ℚ
deriving DecidableEq, Repr

/-- First construction of `AsyncRequestCounter(target)` (lines 63-70):
`_count = 0`, `_start_time = time.time()`; `_end_time` is not initialized. -/
def counterInit (target : Option ℕ) (startTime : ℚ) : Counter :=
  { count := 0, targetRequests := target, startTime := startTime, endTime := none }

/-- `increment()` (lines 72-76): the count grows by one and `_end_time` is set
exactly when the new count equals the target. -/
def Counter.increment (c : Counter) (now : ℚ) : Counter :=
  { c with
      count := c.count + 1
      endTime := if some (c.count + 1) = c.targetRequests then some now else c.endTime }

/-- `get_qps()` (lines 78-79): reads `_end_time`, which raises
`AttributeError` (`none`) when it was never assigned; otherwise divides the
count by the elapsed span. -/
def Counter.getQps (c : Counter) : Option ℚ :=
  match c.endTime with
  | none => none
  | some e => pyDiv (c.count : ℚ) (e - c.startTime)

/-- Counter state after `n` `on_request_start` events, the i-th arriving at
time `times i` (lines 83-87: each event calls `counter.increment()`). -/
def counterAfterEvents (target : Option ℕ) (startTime : ℚ) (times : ℕ → ℚ) : ℕ → Counter
  | 0 => counterInit target startTime
  | n + 1 => (counterAfterEvents target startTime times n).increment (times n)

/-- How many `on_request_start` events one POST attempt fires: `send_request`
builds its `ClientSession` with `trace_configs=[trace_config]` (line 380), so
each POST fires one event; `send_stream_request` builds its session without
any trace configs (line 231), so a streaming attempt fires none. -/
def requestStartEventsPerAttempt (streamRequest : Bool) : ℕ :=
  if streamRequest then 0 else 1

/-- `print_and_save_result` (lines 818-854): it awaits `counter.get_qps()`
(line 827); when that raises (`none`), the exception propagates and no report
is produced; otherwise the throughput figures are computed. -/
def printAndSaveResult (counter : Counter) (numPrompts : ℕ) (durationSec : ℚ)
    (totalRequests : ℕ) (requestLatencies : List (ℕ × ℕ × ℚ)) :
    Option (ℚ × ReportFigures) :=
  match counter.getQps with
  | none => none
  | some q => some (q, reportFigures numPrompts durationSec totalRequests requestLatencies)

/-- The two explicit checks of `benchmark` on the model and weight lists
(lines 481-485), in source order: first the length comparison, then the
tolerance check `abs(total_weight - 1.0) > 1e-6` on the summed weights. -/
def validateTrafficLists (models : List String) (ts : List ℚ) : Except String (List ℚ) :=
  if models.length ≠ ts.length then
    Except.error "The number of models and traffic split values must match"
  else if |ts.sum - 1| > 1 / 1000000 then
    Except.error "Traffic split must sum to 1.0"
  else Except.ok ts

/-- The traffic-split validation of `benchmark` (lines 479-485): a missing
split defaults to the uniform `[1.0 / len(models)] * len(models)` (an empty
model list would raise `ZeroDivisionError` computing `1.0 / len(models)`),
then the two checks run. -/
def validateTrafficSplit (models : List String) (trafficSplit : Option (List ℚ)) :
    Except String (List ℚ) :=
  match trafficSplit with
  | none =>
    if models.length = 0 then Except.error "ZeroDivisionError"
    else validateTrafficLists models (List.replicate models.length (1 / (models.length : ℚ)))
  | some ts => validateTrafficLists models ts

/-- Whether a configuration step succeeded. -/
def configOk : Except String (List ℚ) → Bool
  | Except.ok _ => true
  | Except.error _ => false

/-- `benchmark` validates the traffic split (lines 479-485) before the
dispatch loop starts (line 495): on a validation error the raised `ValueError`
aborts `benchmark` and no request is dispatched; otherwise `num_prompts`
requests are dispatched. -/
def benchmarkDispatch (models : List String) (trafficSplit : Option (List ℚ))
    (numPrompts : ℕ) : Except String ℕ :=
  match validateTrafficSplit models trafficSplit with
  | Except.error e => Except.error e
  | Except.ok _ => Except.ok numPrompts

/-- The `request_rate` argument of `generate_next_request`: `inf` models
`float("inf")`. -/
inductive RequestRate
  | inf
  | finite (r : ℚ)
deriving DecidableEq, Repr

/-- Library model: `np.random.exponential(scale)` returns `scale` times a
unit-mean exponential variate; the variate itself is supplied by the oracle
argument, one fresh draw per call. -/
def npRandomExponential (scale unitDraw : ℚ) : ℚ := scale * unitDraw

/-- The wait after one yield of `generate_next_request` (lines 163-169):
`continue` (no sleep) when the rate is infinite, else
`await asyncio.sleep(np.random.exponential(1.0 / request_rate))`. -/
def interArrivalWait (rate : RequestRate) (unitDraw : ℚ) : ℚ :=
  match rate with
  | .inf => 0
  | .finite r => npRandomExponential (1 / r) unitDraw

/-- Emission instant of the n-th request of `generate_next_request`, taking
the first emission as time zero: each later emission adds one inter-arrival
wait, consuming one fresh exponential draw. -/
def emissionInstant (rate : RequestRate) (draws : ℕ → ℚ) : ℕ → ℚ
  | 0 => 0
  | n + 1 => emissionInstant rate draws n + interArrivalWait rate (draws n)

/-- `MIN_SEQ_LEN` (line 45). -/
def MIN_SEQ_LEN : ℕ := 4

/-- `get_filtered_dataset` (lines 100-152). A dataset entry is modelled as the
list of its conversation turn values; `tokenize` models
`tokenizer(text).input_ids` and `detok` models `tokenizer.decode`. With
`use_dummy_text` the pool is one synthetic entry; otherwise conversations with
fewer than two turns are dropped, the first two turns are tokenized, and
entries whose prompt length or output length fall outside
`[MIN_SEQ_LEN, max_input_len]` and `[MIN_SEQ_LEN, max_output_len]` are pruned.
The function performs no emptiness check on the result. -/
def getFilteredDataset (dataset : List (List String)) (maxInputLen maxOutputLen : ℕ)
    (tokenize : String → List ℕ) (detok : List ℕ → String) (useDummyText : Bool) :
    List (String × ℕ × ℕ) :=
  if useDummyText then
    [(detok (List.replicate maxInputLen 0), maxInputLen, maxOutputLen)]
  else
    let ds := dataset.filter (fun convs => decide (2 ≤ convs.length))
    let pairs := ds.map (fun convs => (convs.getD 0 "", convs.getD 1 ""))
    let tokenized := pairs.map (fun pc => (pc.1, (tokenize pc.1).length, (tokenize pc.2).length))
    tokenized.filter (fun t =>
      decide (MIN_SEQ_LEN ≤ t.2.1 ∧ MIN_SEQ_LEN ≤ t.2.2 ∧
        t.2.1 ≤ maxInputLen ∧ t.2.2 ≤ maxOutputLen))

/-- `random.choice(seq)`: a uniformly drawn element for a nonempty sequence
(the RNG draw is the oracle `i`); on the empty sequence it raises
`IndexError`, modelled by `none`. -/
def randomChoice {α : Type} (l : List α) (i : ℕ) : Option α :=
  l.get? (i % l.length)

/-- The first action of each iteration of `generate_next_request` (line 160):
`request = random.choice(input_requests)`. -/
def generateNextRequestDraw (inputRequests : List (String × ℕ × ℕ)) (i : ℕ) :
    Option (String × ℕ × ℕ) :=
  randomChoice inputRequests i

/-- Insertion step for sorting a rational list. -/
def insertSorted (x : ℚ) : List ℚ → List ℚ
  | [] => [x]
  | y :: ys => if x ≤ y then x :: y :: ys else y :: insertSorted x ys

/-- Ascending sort of a rational list (the sort underlying the numpy order
statistics). -/
def sortQ : List ℚ → List ℚ
  | [] => []
  | x :: xs => insertSorted x (sortQ xs)

/-- `np.mean`: arithmetic mean. -/
def npMean (l : List ℚ) : ℚ := l.sum / (l.length : ℚ)

/-- `np.median`: middle of the sorted data, averaging the two middle values
for an even length. -/
def npMedian (l : List ℚ) : ℚ :=
  let s := sortQ l
  if l.length % 2 = 1 then s.getD (l.length / 2) 0
  else (s.getD (l.length / 2 - 1) 0 + s.getD (l.length / 2) 0) / 2

/-- `np.min`. -/
def npMin : List ℚ → ℚ
  | [] => 0
  | x :: xs => xs.foldl min x

/-- `np.max`. -/
def npMax : List ℚ → ℚ
  | [] => 0
  | x :: xs => xs.foldl max x

/-- `np.percentile` with the default linear-interpolation method: the value at
fractional rank `q / 100 * (n - 1)` of the sorted data. -/
def npPercentile (l : List ℚ) (q : ℚ) : ℚ :=
  let s := sortQ l
  let n := l.length
  if n = 0 then 0
  else
    let rank : ℚ := q * ((n : ℚ) - 1) / 100
    let i : ℕ := rank.floor.toNat
    if i + 1 < n then s.getD i 0 + (rank - (i : ℚ)) * (s.getD (i + 1) 0 - s.getD i 0)
    else s.getD (n - 1) 0

/-- Population variance: the square of `np.std`. -/
def npVar (l : List ℚ) : ℚ :=
  (l.map (fun x => (x - npMean l) ^ 2)).sum / (l.length : ℚ)

/-- `np.std`: population standard deviation. -/
noncomputable def npStd (l : List ℚ) : ℝ := Real.sqrt (npVar l)

/-- The seven-entry summary dict built by `get_stats_for_set`
(lines 797-816). -/
structure StatSummary where
  avg : ℝ
  median : ℝ
  sd : ℝ
  min : ℝ
  max : ℝ
  p90 : ℝ
  p99 : ℝ

/-- `get_stats_for_set` (lines 797-816): each statistic is written
`np.stat(points) if points else 0` — the Python truthiness of a list is its
non-emptiness, so every field of an empty series is the literal 0 and numpy is
never invoked on an empty array. -/
noncomputable def getStatsForSet (points : List ℚ) : StatSummary :=
  { avg := if points.isEmpty then 0 else (npMean points : ℝ)
    median := if points.isEmpty then 0 else (npMedian points : ℝ)
    sd := if points.isEmpty then 0 else npStd points
    min := if points.isEmpty then 0 else (npMin points : ℝ)
    max := if points.isEmpty then 0 else (npMax points : ℝ)
    p90 := if points.isEmpty then 0 else (npPercentile points 90 : ℝ)
    p99 := if points.isEmpty then 0 else (npPercentile points 99 : ℝ) }

/-- Attempt oracle with soft failures (responses carrying an "error" field) on
the first two attempts and a clean response afterwards. -/
def twoSoftFailures : ℕ → AttemptOutcome :=
  fun i => if i < 2 then .response true else .response false

/-- A one-request run for model "A" whose single request failed with a
connection error. -/
def c4Results : List (String × Option ReqResult) :=
  [("A", some (.failure (errorsFor .clientConnectorError)))]

/-- Helper: starting at index `i`, if the first `k` responses carry the soft
"error" field and the attempt at `i + k` is clean, the retry loop makes
`k + 1` further POSTs and breaks. -/
theorem sendRequestLoop_soft_run (attempts : ℕ → AttemptOutcome) :
    ∀ (fuel k i : ℕ),
      (∀ j, j < k → attempts (i + j) = AttemptOutcome.response true) →
      attempts (i + k) = AttemptOutcome.response false → k < fuel →
      sendRequestLoop attempts i fuel = some (SendLoopResult.ok (i + k + 1)) := by
  intro fuel
  induction fuel with
  | zero => intro k i _ _ hk; omega
  | succ f ih =>
    intro k i hsoft hgood hk
    cases k with
    | zero =>
      have h0 : attempts i = AttemptOutcome.response false := by simpa using hgood
      simp [sendRequestLoop, h0]
    | succ k2 =>
      have h0 : attempts i = AttemptOutcome.response true := by
        simpa using hsoft 0 (Nat.succ_pos k2)
      have hrec : sendRequestLoop attempts (i + 1) f
          = some (SendLoopResult.ok (i + 1 + k2 + 1)) := by
        apply ih k2 (i + 1)
        · intro j hj
          have := hsoft (j + 1) (Nat.succ_lt_succ hj)
          have harith : i + (j + 1) = i + 1 + j := by omega
          rwa [harith] at this
        · have harith : i + (k2 + 1) = i + 1 + k2 := by omega
          rwa [harith] at hgood
        · omega
      have harith : i + 1 + k2 + 1 = i + (k2 + 1) + 1 := by omega
      rw [harith] at hrec
      simp [sendRequestLoop, h0, hrec]

/-- Helper: if every response carries the soft "error" field, the retry loop
never terminates (it is still running after any number of iterations). -/
theorem sendRequestLoop_all_soft (fuel : ℕ) :
    ∀ i, sendRequestLoop (fun _ => AttemptOutcome.response true) i fuel = none := by
  induction fuel with
  | zero => intro i; rfl
  | succ f ih => intro i; simpa [sendRequestLoop] using ih (i + 1)

/-- Claim C1 is false on the code: with the soft-failure signal present in the
first two responses, after the second soft failure the retry loop of
`send_request` is still running (two loop iterations yield no result), and a
third POST of the same request is made — the second soft failure is not
treated as success-with-whatever-was-returned. -/
theorem c1_counterexample_third_attempt :
    sendRequestLoop twoSoftFailures 0 2 = none ∧
    sendRequestLoop twoSoftFailures 0 3 = some (SendLoopResult.ok 3) := by
  constructor <;> rfl

/-- Claim C1 amended: on a backend-reported soft failure `send_request`
resends the same request repeatedly, not exactly once: after `k` consecutive
soft failures followed by a clean response it has POSTed `k + 1` times in
total, and if every response carries the embedded error field the loop never
terminates. -/
theorem c1_amended_retries_unbounded :
    (∀ (attempts : ℕ → AttemptOutcome) (k fuel : ℕ),
        (∀ j, j < k → attempts j = AttemptOutcome.response true) →
        attempts k = AttemptOutcome.response false → k < fuel →
        sendRequestLoop attempts 0 fuel = some (SendLoopResult.ok (k + 1))) ∧
    (∀ fuel, sendRequestLoop (fun _ => AttemptOutcome.response true) 0 fuel = none) := by
  constructor
  · intro attempts k fuel hsoft hgood hk
    have := sendRequestLoop_soft_run attempts fuel k 0
      (by simpa using hsoft) (by simpa using hgood) hk
    simpa using this
  · intro fuel
    exact sendRequestLoop_all_soft fuel 0

/-- Witness for the amended claim C1 at a concrete input: three consecutive
soft failures then a clean response give four POSTs in total. -/
theorem c1_amended_witness :
    sendRequestLoop
        (fun i => if i < 3 then AttemptOutcome.response true else AttemptOutcome.response false)
        0 5
      = some (SendLoopResult.ok 4) :=
  c1_amended_retries_unbounded.1 _ 3 5
    (by intro j hj; simp [hj]) (by norm_num) (by norm_num)

/-- Claim C2 fails on the code (code bug): `send_stream_request` creates its
`ClientSession` without trace configs, so in a streaming run no
`on_request_start` event ever fires, the `AsyncRequestCounter` never
increments, `_end_time` is never assigned, and `print_and_save_result` dies
with `AttributeError` inside `get_qps` (`none`); the identical run in
non-streaming mode fires one event per attempt, reaches the target, and
reports. Evaluated at the failing input: a run with `num_prompts = 1` and one
attempt, with request-start times `1, 2, ...` and duration 2. -/
theorem c2_streaming_qps_crash :
    requestStartEventsPerAttempt true = 0 ∧
    printAndSaveResult
        (counterAfterEvents (some 1) 0 (fun i => (i : ℚ) + 1)
          (1 * requestStartEventsPerAttempt true)) 1 2 1 [] = none ∧
    printAndSaveResult
        (counterAfterEvents (some 1) 0 (fun i => (i : ℚ) + 1)
          (1 * requestStartEventsPerAttempt false)) 1 2 1 []
      = some (1, reportFigures 1 2 1 []) := by
  refine ⟨rfl, rfl, ?_⟩
  norm_num [printAndSaveResult, requestStartEventsPerAttempt, counterAfterEvents,
    counterInit, Counter.increment, Counter.getQps, pyDiv]

/-- Claim C3 is false on the code: a dataset whose only entry is pruned (its
tokenized lengths fall below `MIN_SEQ_LEN`) makes `get_filtered_dataset`
return the empty pool normally — no `EmptyPoolError` exists and no emptiness
check is performed at startup — and the failure surfaces only at the first
draw of `generate_next_request`, where `random.choice` raises `IndexError`
(`none`). -/
theorem c3_counterexample_no_startup_error :
    getFilteredDataset [["ab", "cd"]] 1024 1024 (fun _ => [0]) (fun _ => "") false = [] ∧
    generateNextRequestDraw
        (getFilteredDataset [["ab", "cd"]] 1024 1024 (fun _ => [0]) (fun _ => "") false) 0
      = none := by
  constructor <;> rfl

/-- Claim C3 amended: if filtering removes every entry,
`get_filtered_dataset` returns the empty list without raising; the program
then fails during per-request generation, when the first
`random.choice(input_requests)` inside `generate_next_request` raises
`IndexError` — there is no `EmptyPoolError` and no startup-time emptiness
check. -/
theorem c3_amended_empty_pool_fails_at_draw :
    ∀ (dataset : List (List String)) (maxInputLen maxOutputLen : ℕ)
      (tokenize : String → List ℕ) (detok : List ℕ → String) (i : ℕ),
      getFilteredDataset dataset maxInputLen maxOutputLen tokenize detok false = [] →
      generateNextRequestDraw
          (getFilteredDataset dataset maxInputLen maxOutputLen tokenize detok false) i
        = none := by
  intro dataset maxInputLen maxOutputLen tokenize detok i h
  rw [h]
  rfl

/-- Witness for the amended claim C3 at a concrete input. -/
theorem c3_amended_witness :
    generateNextRequestDraw
        (getFilteredDataset [["ab", "cd"]] 8 8 (fun _ => [0]) (fun _ => "") false) 5
      = none :=
  c3_amended_empty_pool_fails_at_draw [["ab", "cd"]] 8 8 (fun _ => [0]) (fun _ => "") 5 rfl

/-- Helper: a result contributes exactly `resLat r` to the latency series of a
bucket. -/
theorem bucketAdd_latencies (b : BucketAcc) (r : ReqResult) :
    (bucketAdd b r).latencies = b.latencies ++ resLat r := by
  cases r <;> simp [bucketAdd, resLat]

/-- Helper: after the collector loop, the overall latency series is the
successful latencies of all results and each model bucket holds the successful
latencies of its own results, appended to the initial contents. -/
theorem collectLoop_latencies :
    ∀ (results : List (String × Option ReqResult)) (ov : BucketAcc) (pm : String → BucketAcc),
      ((collectLoop results ov pm).1.latencies = ov.latencies ++ successLatsAll results) ∧
      (∀ m, ((collectLoop results ov pm).2 m).latencies
        = (pm m).latencies ++ successLatsFor results m) := by
  intro results
  induction results with
  | nil => intro ov pm; simp [collectLoop, successLatsAll, successLatsFor]
  | cons hd rest ih =>
    intro ov pm
    obtain ⟨m2, r⟩ := hd
    cases r with
    | none => simpa [collectLoop, successLatsAll, successLatsFor] using ih ov pm
    | some rr =>
      constructor
      · have h1 := (ih (bucketAdd ov rr)
          (fun m3 => if m3 = m2 then bucketAdd (pm m3) rr else pm m3)).1
        rw [show collectLoop ((m2, some rr) :: rest) ov pm
            = collectLoop rest (bucketAdd ov rr)
                (fun m3 => if m3 = m2 then bucketAdd (pm m3) rr else pm m3) from rfl]
        rw [h1, bucketAdd_latencies]
        simp [successLatsAll, List.append_assoc]
      · intro m
        have h2 := (ih (bucketAdd ov rr)
          (fun m3 => if m3 = m2 then bucketAdd (pm m3) rr else pm m3)).2 m
        rw [show collectLoop ((m2, some rr) :: rest) ov pm
            = collectLoop rest (bucketAdd ov rr)
                (fun m3 => if m3 = m2 then bucketAdd (pm m3) rr else pm m3) from rfl]
        rw [h2]
        by_cases hm : m = m2
        · subst hm
          simp [bucketAdd_latencies, successLatsFor, List.append_assoc]
        · have hm2 : ¬ m2 = m := fun h => hm h.symm
          simp [successLatsFor, hm, hm2]

/-- Claim C4 is false on the code for per-model buckets: with one request
emitted for model "A" that fails with a connection error and a run duration of
2 seconds, the per-model report computes `Requests/sec` as
`len(latencies) / duration = 0`, not `emitted / duration = 1/2`. -/
theorem c4_counterexample_model_rps :
    emittedTo c4Results "A" = 1 ∧
    (modelReportFigures 1 2 c4Results "A").requestsPerSec
      ≠ (emittedTo c4Results "A" : ℚ) / 2 := by
  have hlat : ((collect c4Results).2 "A").latencies = [] := by
    have hpm := (collectLoop_latencies c4Results emptyBucket (fun _ => emptyBucket)).2 "A"
    simpa [collect, emptyBucket, c4Results, successLatsFor, resLat] using hpm
  constructor
  · rfl
  · have h0 : (modelReportFigures 1 2 c4Results "A").requestsPerSec = 0 := by
      simp [modelReportFigures, reportFigures, hlat]
    rw [h0, show emittedTo c4Results "A" = 1 from rfl]
    norm_num

/-- Claim C4 amended: the weighted bucket reports `Requests/sec` as the
emitted count `prompts_sent` over the duration, and every bucket reports
output tokens/sec as the sum of its successful output lengths over the
duration; but a per-model bucket reports `Requests/sec` as its number of
successful requests over the duration — emitted-but-failed requests of that
model are not counted — and the saved `throughput_rps` field is the global
`num_prompts` over the duration for every bucket. -/
theorem c4_amended_throughput_figures :
    ∀ (results : List (String × Option ReqResult)) (numPrompts promptsSent : ℕ)
      (durationSec : ℚ) (m : String),
      (weightedReportFigures numPrompts promptsSent durationSec results).requestsPerSec
          = (promptsSent : ℚ) / durationSec ∧
      (weightedReportFigures numPrompts promptsSent durationSec results).outputTokensPerSec
          = (sumOutputLens (successLatsAll results) : ℚ) / durationSec ∧
      (modelReportFigures numPrompts durationSec results m).requestsPerSec
          = ((successLatsFor results m).length : ℚ) / durationSec ∧
      (modelReportFigures numPrompts durationSec results m).outputTokensPerSec
          = (sumOutputLens (successLatsFor results m) : ℚ) / durationSec ∧
      (modelReportFigures numPrompts durationSec results m).throughputRps
          = (numPrompts : ℚ) / durationSec := by
  intro results numPrompts promptsSent durationSec m
  have hov := (collectLoop_latencies results emptyBucket (fun _ => emptyBucket)).1
  have hpm := (collectLoop_latencies results emptyBucket (fun _ => emptyBucket)).2 m
  simp only [show emptyBucket.latencies = [] from rfl, List.nil_append] at hov hpm
  refine ⟨rfl, ?_, ?_, ?_, rfl⟩ <;>
    simp [weightedReportFigures, modelReportFigures, reportFigures, collect, hov, hpm]

/-- Helper: the two explicit checks of `benchmark` succeed exactly when the
lengths match and the weight sum is within the 1e-6 tolerance of 1. -/
theorem validateTrafficLists_ok_iff (models : List String) (ts : List ℚ) :
    configOk (validateTrafficLists models ts) = true ↔
      models.length = ts.length ∧ |ts.sum - 1| ≤ 1 / 1000000 := by
  unfold validateTrafficLists
  split_ifs with h1 h2
  · simp only [configOk]
    constructor
    · intro h; cases h
    · rintro ⟨hlen, _⟩; exact absurd hlen h1
  · simp only [configOk]
    constructor
    · intro h; cases h
    · rintro ⟨_, habs⟩; exact absurd habs (not_le.mpr h2)
  · simp only [configOk, true_iff]
    exact ⟨not_not.mp h1, not_lt.mp h2⟩

/-- Claim C5: a supplied weight list passes configuration exactly when its
length equals the model-list length and its sum is within 1e-6 of 1; any
violation yields a deterministic error before any request is dispatched; and
a missing weight list defaults to the uniform `1 / len(models)` weights,
which always pass (for a nonempty model list). -/
theorem c5_traffic_split_validation :
    (∀ (models : List String) (w : List ℚ),
        configOk (validateTrafficSplit models (some w)) = true ↔
          models.length = w.length ∧ |w.sum - 1| ≤ 1 / 1000000) ∧
    (∀ (models : List String) (w : List ℚ) (numPrompts : ℕ),
        configOk (validateTrafficSplit models (some w)) = false →
          ∃ e, benchmarkDispatch models (some w) numPrompts = Except.error e) ∧
    (∀ models : List String, models ≠ [] →
        validateTrafficSplit models none
          = Except.ok (List.replicate models.length (1 / (models.length : ℚ)))) := by
  refine ⟨?_, ?_, ?_⟩
  · intro models w
    exact validateTrafficLists_ok_iff models w
  · intro models w numPrompts hfail
    unfold benchmarkDispatch
    cases hv : validateTrafficSplit models (some w) with
    | error e => exact ⟨e, by simp⟩
    | ok ts => rw [hv] at hfail; simp [configOk] at hfail
  · intro models hne
    have hlen : models.length ≠ 0 := by
      intro h; exact hne (List.length_eq_zero.mp h)
    have hq : (models.length : ℚ) ≠ 0 := Nat.cast_ne_zero.mpr hlen
    unfold validateTrafficSplit
    rw [if_neg hlen]
    unfold validateTrafficLists
    rw [if_neg (by simp)]
    have hsum : (List.replicate models.length (1 / (models.length : ℚ))).sum = 1 := by
      rw [List.sum_replicate, nsmul_eq_mul]
      field_simp
    rw [hsum]
    norm_num

/-- Witness for claim C5 at concrete inputs: a weight list summing to 2 is
rejected before dispatch, and two models with no weight list get uniform
halves. -/
theorem c5_traffic_split_witness :
    (∃ e, benchmarkDispatch ["a"] (some [2]) 5 = Except.error e) ∧
    validateTrafficSplit ["a", "b"] none = Except.ok (List.replicate 2 (1 / 2)) := by
  constructor
  · apply c5_traffic_split_validation.2.1 ["a"] [2] 5
    have hcond : |(List.sum [(2 : ℚ)]) - 1| > 1 / 1000000 := by
      norm_num [List.sum_cons, List.sum_nil]
    show configOk (validateTrafficLists ["a"] [2]) = false
    unfold validateTrafficLists
    rw [if_neg (by simp), if_pos hcond]
    rfl
  · exact c5_traffic_split_validation.2.2 ["a", "b"] (by simp)

/-- Claim C6: for a streaming success with a truthy `ttft_ms`, the collector
stores exactly the value of the guarded tpot expression, which equals
`(latency - ttft) / (output_len - 1)` when `output_len > 1` and `0` when
`output_len = 1`, and whose guarded division can never raise
`ZeroDivisionError`. -/
theorem c6_tpot_formula :
    ∀ (latencyMs t : ℚ) (outputLen promptLen : ℕ) (b : BucketAcc) (itl : Option (List ℚ)),
      t ≠ 0 →
      (tpotExprChecked latencyMs t outputLen).isSome = true ∧
      (bucketAdd b (ReqResult.success (promptLen, outputLen, latencyMs) (some t) itl)).tpots
        = b.tpots ++ [tpotExpr latencyMs t outputLen] ∧
      (1 < outputLen → tpotExpr latencyMs t outputLen = (latencyMs - t) / ((outputLen : ℚ) - 1)) ∧
      (outputLen = 1 → tpotExpr latencyMs t outputLen = 0) := by
  intro latencyMs t outputLen promptLen b itl ht
  refine ⟨?_, ?_, ?_, ?_⟩
  · unfold tpotExprChecked pyDiv
    split_ifs with h1 h2
    · exfalso
      have hlt : (1 : ℚ) < (outputLen : ℚ) := by exact_mod_cast h1
      have : (outputLen : ℚ) - 1 ≠ 0 := by linarith
      exact this h2
    · rfl
    · rfl
  · have htr : truthyQ (some t) = true := by simp [truthyQ, ht]
    simp [bucketAdd, htr]
  · intro h; simp [tpotExpr, h]
  · intro h; subst h; simp [tpotExpr]

/-- Witness for claim C6 at a concrete input: latency 10, ttft 2, output
length 3. -/
theorem c6_tpot_formula_witness :
    (tpotExprChecked 10 2 3).isSome = true ∧
    (bucketAdd emptyBucket (ReqResult.success (5, 3, 10) (some 2) none)).tpots
      = emptyBucket.tpots ++ [tpotExpr 10 2 3] ∧
    (1 < 3 → tpotExpr 10 2 3 = (10 - 2) / ((3 : ℚ) - 1)) ∧
    (3 = 1 → tpotExpr 10 2 3 = 0) :=
  c6_tpot_formula 10 2 3 5 emptyBucket none (by norm_num)

/-- Claim C7: `get_stats_for_set` on the empty series returns the all-zero
summary — every `np.stat(points) if points else 0` expression short-circuits
to the literal 0, so nothing is thrown. -/
theorem c7_empty_series_all_zero :
    getStatsForSet [] =
      { avg := 0, median := 0, sd := 0, min := 0, max := 0, p90 := 0, p99 := 0 } := by
  simp [getStatsForSet]

/-- Claim C8: for an infinite request rate the scheduler never sleeps, so all
emission instants coincide at time zero; for a finite rate `lam > 0` each
inter-arrival gap is `np.random.exponential(1 / lam)` — the scale `1 / lam`
(which is the mean of the sampled exponential distribution) times a fresh
unit-mean exponential draw, one independent oracle draw per gap. -/
theorem c8_arrival_process :
    (∀ (draws : ℕ → ℚ) (n : ℕ), emissionInstant RequestRate.inf draws n = 0) ∧
    (∀ (lam : ℚ) (draws : ℕ → ℚ) (n : ℕ), 0 < lam →
        emissionInstant (RequestRate.finite lam) draws (n + 1)
            - emissionInstant (RequestRate.finite lam) draws n
          = (1 / lam) * draws n) := by
  constructor
  · intro draws n
    induction n with
    | zero => rfl
    | succ k ih => simp [emissionInstant, interArrivalWait, ih]
  · intro lam draws n _
    simp [emissionInstant, interArrivalWait, npRandomExponential]

/-- Witness for claim C8 at a concrete input: rate 2, first gap. -/
theorem c8_arrival_process_witness :
    emissionInstant (RequestRate.finite 2) (fun i => (i : ℚ) + 1) 1
        - emissionInstant (RequestRate.finite 2) (fun i => (i : ℚ) + 1) 0
      = (1 / 2) * ((fun i => (i : ℚ) + 1) 0) :=
  c8_arrival_process.2 2 (fun i => (i : ℚ) + 1) 0 (by norm_num)

/-- Claim C9: a connection-establishment failure on the first POST makes
`send_request` return the error map whose only nonzero counter is
`ClientConnectorError = 1`; the collector charges that map to both the
`"weighted"` bucket and the chosen model bucket, leaving every latency, ttft,
inter-token-latency and tpot series of the charged bucket unchanged. -/
theorem c9_connection_error_buckets :
    (∀ fuel : ℕ,
        sendRequestLoop (fun _ => AttemptOutcome.exn TransportErr.clientConnectorError) 0 (fuel + 1)
          = some (SendLoopResult.failed (errorsFor TransportErr.clientConnectorError))) ∧
    errorsFor TransportErr.clientConnectorError
      = { initErrorsMap with clientConnectorError := 1 } ∧
    (∀ b : BucketAcc,
        (bucketAdd b (ReqResult.failure (errorsFor TransportErr.clientConnectorError))).latencies
            = b.latencies ∧
        (bucketAdd b (ReqResult.failure (errorsFor TransportErr.clientConnectorError))).ttfts
            = b.ttfts ∧
        (bucketAdd b (ReqResult.failure (errorsFor TransportErr.clientConnectorError))).itls
            = b.itls ∧
        (bucketAdd b (ReqResult.failure (errorsFor TransportErr.clientConnectorError))).tpots
            = b.tpots ∧
        (bucketAdd b (ReqResult.failure (errorsFor TransportErr.clientConnectorError))).errors.clientConnectorError
            = b.errors.clientConnectorError + 1) ∧
    (∀ (ov : BucketAcc) (pm : String → BucketAcc) (m : String)
        (rest : List (String × Option ReqResult)),
        collectLoop
            ((m, some (ReqResult.failure (errorsFor TransportErr.clientConnectorError))) :: rest)
            ov pm
          = collectLoop rest
              (bucketAdd ov (ReqResult.failure (errorsFor TransportErr.clientConnectorError)))
              (fun m2 => if m2 = m then
                  bucketAdd (pm m2) (ReqResult.failure (errorsFor TransportErr.clientConnectorError))
                else pm m2)) := by
  refine ⟨fun fuel => rfl, rfl, ?_, fun ov pm m rest => rfl⟩
  intro b
  refine ⟨rfl, rfl, rfl, rfl, ?_⟩
  simp [bucketAdd, ErrorsMap.add, errorsFor, initErrorsMap]

/-- Claim C10: when the response text tokenizes to zero tokens, the
normalized time-per-output-token observation divides the request latency by
the zero output length, so both `send_request` and `send_stream_request`
raise `ZeroDivisionError` (`none`) instead of returning an outcome. -/
theorem c10_zero_output_division :
    ∀ (latencyMs ttftMs : ℚ) (promptLen : ℕ),
      sendRequestFinish promptLen 0 latencyMs = none ∧
      sendStreamRequestFinish promptLen 0 latencyMs ttftMs = none := by
  intro latencyMs ttftMs promptLen
  constructor <;> simp [sendRequestFinish, sendStreamRequestFinish, pyDiv]
